import Mathlib

/-
Verification of the diagnostic analysis engine of the sqlserver-doctor MCP
server (src/sqlserver_doctor/server.py) against its natural-language
specification.  The Python code is shallowly embedded: pure computations
become Lean functions, database interaction becomes explicit oracle
parameters, Python floats become rationals, Python ints become Lean
integers, and pydantic response models become Lean structures.  Regular
expression checks from the source are embedded as dedicated character-list
scanners implementing the exact patterns that appear in the code.
-/

/-! ## Python string semantics helpers -/

/-- Python whitespace characters recognised by str.strip and the regex
class for whitespace (ASCII range). -/
def isPySpace (c : Char) : Bool :=
  c = ' ' || c = '\t' || c = '\n' || c = '\r' || c = '\x0b' || c = '\x0c'

/-- Word characters of the regex word class (ASCII approximation:
letters, digits and underscore). -/
def isWordChar (c : Char) : Bool := c.isAlphanum || c = '_'

/-- Single or double quote character, the class that opens a string
literal in the patterns of the source. -/
def isQuoteCh (c : Char) : Bool := c = '\'' || c = '"'

/-- Python str.strip on a character list: drop leading and trailing
whitespace. -/
def pyStripList (cs : List Char) : List Char :=
  ((cs.dropWhile isPySpace).reverse.dropWhile isPySpace).reverse

/-- Python str.strip on a string. -/
def pyStrip (s : String) : String := String.mk (pyStripList s.toList)

/-- Python str.upper (ASCII approximation via Char.toUpper). -/
def pyUpper (s : String) : String := String.mk (s.toList.map Char.toUpper)

/-- Python str.startswith. -/
def pyStartsWith (s p : String) : Bool := p.toList.isPrefixOf s.toList

/-- Python str.strip with an explicit character set: drop leading and
trailing characters belonging to the set. -/
def pyStripSet (set : List Char) (s : String) : String :=
  String.mk (((s.toList.dropWhile (fun c => set.contains c)).reverse.dropWhile
    (fun c => set.contains c)).reverse)

/-- Replace, in a character list, every non-overlapping occurrence of a
nonempty pattern by a replacement, scanning left to right (Python
str.replace).  Fuel-driven; the fuel is the length of the input. -/
def pyReplaceListF : Nat → List Char → List Char → List Char → List Char
  | 0, _, _, rest => rest
  | _, _, _, [] => []
  | fuel + 1, pat, rep, c :: cs =>
    match pat.isPrefixOf (c :: cs), pat.length with
    | true, n + 1 => rep ++ pyReplaceListF fuel pat rep (List.drop n cs)
    | _, _ => c :: pyReplaceListF fuel pat rep cs

/-- Python str.replace (all occurrences, left to right). -/
def pyReplace (s pat rep : String) : String :=
  String.mk (pyReplaceListF s.toList.length pat.toList rep.toList s.toList)

/-- Split a character list on a nonempty separator, Python str.split
semantics (the empty input gives one empty field; no field is dropped). -/
def pySplitListF : Nat → List Char → List Char → List Char
    → List (List Char)
  | 0, _, acc, rest => [acc.reverse ++ rest]
  | _, _, acc, [] => [acc.reverse]
  | fuel + 1, sep, acc, c :: cs =>
    match sep.isPrefixOf (c :: cs), sep.length with
    | true, n + 1 =>
      acc.reverse :: pySplitListF fuel sep [] (List.drop n cs)
    | _, _ => pySplitListF fuel sep (c :: acc) cs

/-- Python str.split on a nonempty separator string. -/
def pySplit (s sep : String) : List String :=
  (pySplitListF s.toList.length sep.toList [] s.toList).map String.mk

/-- Python str.join over a list of strings. -/
def pyJoin (sep : String) (xs : List String) : String :=
  String.intercalate sep xs

/-- Truthiness of an optional Python list value. -/
def pyTruthyStrList : Option (List String) → Bool
  | none => false
  | some l => !l.isEmpty

/-- Truthiness of an optional Python string value. -/
def pyTruthyStr : Option String → Bool
  | none => false
  | some s => !s.isEmpty

/-! ## Plan document model

The execution-plan XML is modelled by the information the code extracts
from it: the first per-thread runtime counters element, the
missing-index groups, the count of columns-without-statistics warnings,
and the estimated row counts of scan-classified operators.  A document
that fails XML parsing is the separate `malformed` state. -/

/-- Attribute values of the first RunTimeCountersPerThread element, each
defaulted to 0 when the attribute is absent (mirrors `int(get(k, 0))`
in `_parse_runtime_stats_from_plan`). -/
structure RuntimeStatsRaw where
  actualRows : Int
  actualElapsedMs : Int
  actualCpuMs : Int
  actualLogicalReads : Int
  actualPhysicalReads : Int
  actualReadAheads : Int
  actualLobLogicalReads : Int
  actualLobPhysicalReads : Int
  deriving Repr, DecidableEq

/-- Column group of a MissingIndex element: the Usage attribute and the
raw Name attributes of its Column children. -/
structure ColumnGroupX where
  usage : String
  columns : List String
  deriving Repr, DecidableEq

/-- MissingIndex element: raw Database/Schema/Table attributes (with the
Python-side defaults already applied: absent Database or Table is the
empty string, absent Schema is "dbo") and the column groups. -/
structure MissingIndexElem where
  database : String
  schemaName : String
  table : String
  columnGroups : List ColumnGroupX
  deriving Repr, DecidableEq

/-- MissingIndexGroup element: Impact attribute (default 0) and the
optional nested MissingIndex element. -/
structure MissingIndexGroupX where
  impact : ℚ
  missingIndex : Option MissingIndexElem
  deriving Repr, DecidableEq

/-- Information extractable from a well-formed plan document. -/
structure PlanContent where
  runtime : Option RuntimeStatsRaw
  missingIndexGroups : List MissingIndexGroupX
  noStatsWarningCount : Nat
  scanEstimates : List ℚ
  deriving Repr, DecidableEq

/-- A plan XML input: either unparseable or a well-formed document. -/
inductive PlanXmlDoc where
  | malformed
  | wellFormed (content : PlanContent)
  deriving Repr, DecidableEq

/-- Embedding of `_parse_runtime_stats_from_plan`: a parse error is
caught and yields None; a well-formed document without a
RunTimeCountersPerThread element also yields None; otherwise the
counters are returned. -/
def _parse_runtime_stats_from_plan : PlanXmlDoc → Option RuntimeStatsRaw
  | .malformed => none
  | .wellFormed c => c.runtime

/-! ## Execution metrics and bottleneck classification -/

/-- Pydantic model ExecutionMetrics. -/
structure ExecutionMetrics where
  duration_ms : Int
  cpu_time_ms : Int
  logical_reads : Int
  physical_reads : Int
  read_ahead_reads : Int
  lob_logical_reads : Int
  lob_physical_reads : Int
  row_count : Int
  estimated_cost : ℚ
  deriving Repr, DecidableEq

/-- Bottleneck classification of `analyze_query_execution` (the inline
block after metrics construction), with Python floats as rationals. -/
def bottleneckType (m : ExecutionMetrics) : Option String :=
  if m.logical_reads > 0 then
    let cpu_percentage : ℚ :=
      if m.duration_ms > 0 then
        (m.cpu_time_ms : ℚ) / (m.duration_ms : ℚ) * 100
      else 0
    if cpu_percentage > 70 then some "CPU_BOUND"
    else if (m.physical_reads : ℚ) > (m.logical_reads : ℚ) * (1 / 10) then
      some "IO_BOUND"
    else some "MEMORY_BOUND"
  else if m.duration_ms > 1000 then some "UNKNOWN"
  else none

/-- Response model of analyze_query_execution.  The plan summary and
wait statistics are always None in the source, so their payload types
are irrelevant and modelled by Unit. -/
structure AnalyzeQueryExecutionResponse where
  execution_metrics : Option ExecutionMetrics
  execution_plan_xml : Option PlanXmlDoc
  execution_plan_summary : Option Unit
  wait_statistics : Option Unit
  bottleneck_type : Option String
  query_hash : Option String
  query_plan_hash : Option String
  success : Bool
  error : Option String
  deriving Repr, DecidableEq

/-- Data produced by a successful execution of the combined query:
number of captured result rows, the captured plan document (None when
not captured or empty), and the measured wall-clock milliseconds. -/
structure ExecData where
  resultsCount : Nat
  plan : Option PlanXmlDoc
  executionTimeMs : Int
  deriving Repr, DecidableEq

/-- Oracle for the database interactions of analyze_query_execution:
the outcome of running the combined query, and the result of the
query-hash lookup (None models an exception or empty result there). -/
structure ExecOracle where
  run : Except String ExecData
  hashRows : Option (Option String × Option String)

/-- Failure envelope of analyze_query_execution. -/
def execFailEnvelope (e : String) : AnalyzeQueryExecutionResponse :=
  { execution_metrics := none, execution_plan_xml := none,
    execution_plan_summary := none, wait_statistics := none,
    bottleneck_type := none, query_hash := none, query_plan_hash := none,
    success := false, error := some e }

/-- Embedding of `analyze_query_execution`.  The SELECT-only guard runs
before any database interaction; afterwards the oracle supplies the
execution outcome, runtime statistics are parsed from the captured plan
(falling back to wall-clock metrics), and the bottleneck is
classified. -/
def analyze_query_execution (query : String) (_database_name : Option String)
    (_include_actual_plan : Bool) (_max_execution_time_seconds : Int)
    (o : ExecOracle) : AnalyzeQueryExecutionResponse :=
  let query_upper := pyUpper (pyStrip query)
  if !(pyStartsWith query_upper "SELECT") && !(pyStartsWith query_upper "WITH") then
    execFailEnvelope "Only SELECT queries are allowed for analysis"
  else
    match o.run with
    | .error e => execFailEnvelope ("Query execution failed: " ++ e)
    | .ok d =>
      let hashes := match o.hashRows with
        | none => (none, none)
        | some p => p
      let runtime_stats := match d.plan with
        | some doc => _parse_runtime_stats_from_plan doc
        | none => none
      let execution_metrics : ExecutionMetrics := match runtime_stats with
        | some rs =>
          { duration_ms := if rs.actualElapsedMs > 0 then rs.actualElapsedMs
                           else d.executionTimeMs,
            cpu_time_ms := rs.actualCpuMs,
            logical_reads := rs.actualLogicalReads,
            physical_reads := rs.actualPhysicalReads,
            read_ahead_reads := rs.actualReadAheads,
            lob_logical_reads := rs.actualLobLogicalReads,
            lob_physical_reads := rs.actualLobPhysicalReads,
            row_count := rs.actualRows,
            estimated_cost := 0 }
        | none =>
          { duration_ms := d.executionTimeMs, cpu_time_ms := 0,
            logical_reads := 0, physical_reads := 0, read_ahead_reads := 0,
            lob_logical_reads := 0, lob_physical_reads := 0,
            row_count := (d.resultsCount : Int), estimated_cost := 0 }
      { execution_metrics := some execution_metrics,
        execution_plan_xml := d.plan,
        execution_plan_summary := none,
        wait_statistics := none,
        bottleneck_type := bottleneckType execution_metrics,
        query_hash := hashes.1, query_plan_hash := hashes.2,
        success := true, error := none }

/-! ## Statistics health analyzer -/

/-- Row returned by the per-table statistics query (nullable columns are
options; the decimal columns become rationals). -/
structure StatRow where
  index_name : Option String
  statistics_name : String
  last_updated : String
  days_old : Option Int
  rows_in_table : Int
  rows_sampled : Int
  sampling_percent : Option ℚ
  modification_counter : Int
  modification_percent : Option ℚ
  deriving Repr, DecidableEq

/-- Pydantic model StatisticsAnalysis. -/
structure StatisticsAnalysis where
  table : String
  index : Option String
  statistics_name : String
  last_updated : String
  days_old : Int
  rows_in_table : Int
  rows_sampled : Int
  sampling_percent : ℚ
  modification_counter : Int
  modification_percent : ℚ
  needs_update : Bool
  severity : String
  recommendation : Option String
  deriving Repr, DecidableEq

/-- Pydantic model CardinalityMismatch (never populated by the code). -/
structure CardinalityMismatch where
  table : String
  estimated_rows : Int
  actual_rows : Int
  variance_ratio : ℚ
  likely_cause : String
  impact : String
  deriving Repr, DecidableEq

/-- Per-row analysis of get_query_statistics_health: null-defaulting of
days_old to 999, falsy-defaulting of the percentages to 0, then the
freshness thresholds. -/
def mkStatRowAnalysis (table_name : String) (row : StatRow) : StatisticsAnalysis :=
  let days_old : Int := match row.days_old with
    | some d => d
    | none => 999
  let mod_percent : ℚ := match row.modification_percent with
    | some v => v
    | none => 0
  let sampling : ℚ := match row.sampling_percent with
    | some v => v
    | none => 0
  let base : StatisticsAnalysis :=
    { table := table_name, index := row.index_name,
      statistics_name := row.statistics_name,
      last_updated := row.last_updated, days_old := days_old,
      rows_in_table := row.rows_in_table, rows_sampled := row.rows_sampled,
      sampling_percent := sampling,
      modification_counter := row.modification_counter,
      modification_percent := mod_percent,
      needs_update := false, severity := "OK", recommendation := none }
  if days_old > 30 ∨ mod_percent > 20 then
    if mod_percent > 50 ∨ days_old > 90 then
      { base with
          needs_update := true, severity := "HIGH",
          recommendation := some ("UPDATE STATISTICS " ++ table_name ++ " WITH FULLSCAN;") }
    else
      { base with
          needs_update := true, severity := "WARNING",
          recommendation := some ("UPDATE STATISTICS " ++ table_name ++ ";") }
  else base

/-- Response model of get_query_statistics_health. -/
structure GetQueryStatisticsHealthResponse where
  statistics_analysis : List StatisticsAnalysis
  cardinality_mismatches : List CardinalityMismatch
  auto_update_stats_enabled : Bool
  auto_create_stats_enabled : Bool
  success : Bool
  error : Option String
  deriving Repr, DecidableEq

/-- Oracle for the database interactions of get_query_statistics_health:
the database-configuration lookup (possibly raising), and the per-table
statistics query (possibly raising). -/
structure StatsHealthOracle where
  dbConfig : Except Unit (List (Bool × Bool))
  statsRows : String → Except Unit (List StatRow)

/-- Embedding of `get_query_statistics_health`.  When no table names
are supplied, the plan-XML fallback sets the list to the empty list
(the extraction is not implemented), and the empty list then triggers
the validation failure envelope.  Each table whose statistics query
raises or returns no rows is skipped. -/
def get_query_statistics_health (_database_name : String)
    (table_names : Option (List String)) (execution_plan_xml : Option String)
    (o : StatsHealthOracle) : GetQueryStatisticsHealthResponse :=
  let table_names1 : Option (List String) :=
    if !(pyTruthyStrList table_names) && pyTruthyStr execution_plan_xml then
      some []
    else table_names
  if !(pyTruthyStrList table_names1) then
    { statistics_analysis := [], cardinality_mismatches := [],
      auto_update_stats_enabled := false, auto_create_stats_enabled := false,
      success := false,
      error := some "Either table_names or execution_plan_xml must be provided" }
  else
    let flags : Bool × Bool := match o.dbConfig with
      | .error _ => (false, false)
      | .ok [] => (false, false)
      | .ok (x :: _) => x
    let tables := table_names1.getD []
    let statistics_analysis := tables.flatMap (fun t =>
      match o.statsRows t with
      | .error _ => []
      | .ok rows => rows.map (mkStatRowAnalysis t))
    { statistics_analysis := statistics_analysis,
      cardinality_mismatches := [],
      auto_update_stats_enabled := flags.1,
      auto_create_stats_enabled := flags.2,
      success := true, error := none }

/-! ## Regex scanners for detect_query_antipatterns

Each regular expression appearing in the source is embedded as a
dedicated scanner over character lists.  A scanner `...At` decides a
match anchored at the current position and returns the unconsumed
suffix; searches try every position left to right, tracking the
previous character where the pattern begins with a word boundary. -/

/-- Match a literal character sequence, returning the rest. -/
def matchLit : List Char → List Char → Option (List Char)
  | [], cs => some cs
  | _ :: _, [] => none
  | l :: ls, c :: cs => if c = l then matchLit ls cs else none

/-- Match a literal character sequence case-insensitively. -/
def matchLitCI : List Char → List Char → Option (List Char)
  | [], cs => some cs
  | _ :: _, [] => none
  | l :: ls, c :: cs =>
    if c.toUpper = l.toUpper then matchLitCI ls cs else none

/-- One or more whitespace characters, consumed greedily. -/
def spaces1 : List Char → Option (List Char)
  | c :: cs => if isPySpace c then some (cs.dropWhile isPySpace) else none
  | [] => none

/-- One or more word characters, consumed greedily; returns the run and
the rest. -/
def word1 : List Char → Option (List Char × List Char)
  | c :: cs =>
    if isWordChar c then
      some ((c :: cs).takeWhile isWordChar, (c :: cs).dropWhile isWordChar)
    else none
  | [] => none

/-- Leftmost position where an anchored matcher succeeds: returns the
suffix at the match start and the rest after the match. -/
def searchFirst (f : List Char → Option (List Char)) :
    List Char → Option (List Char × List Char)
  | [] => (f []).map (fun r => (([] : List Char), r))
  | c :: cs =>
    match f (c :: cs) with
    | some r => some (c :: cs, r)
    | none => searchFirst f cs

/-- Text consumed by a match, recovered from the start suffix and the
rest after the match. -/
def matchedText (st rest : List Char) : List Char :=
  st.take (st.length - rest.length)

/-! ### Pattern 1: SELECT star -/

/-- Anchored match of the tail of the search pattern for a SELECT-star
construct: the SELECT keyword, whitespace, the star, whitespace, the
FROM keyword, ending at a word boundary. -/
def selectStarAt (cs : List Char) : Option (List Char) := do
  let r ← matchLit "SELECT".toList cs
  let r ← spaces1 r
  let r ← matchLit ['*'] r
  let r ← spaces1 r
  let r ← matchLit "FROM".toList r
  match r with
  | [] => some []
  | c :: cs2 => if isWordChar c then none else some (c :: cs2)

/-- Anchored match of the location pattern for SELECT-star (the same
construct without the word-boundary requirements). -/
def selectStarLocAt (cs : List Char) : Option (List Char) := do
  let r ← matchLit "SELECT".toList cs
  let r ← spaces1 r
  let r ← matchLit ['*'] r
  let r ← spaces1 r
  matchLit "FROM".toList r

/-- Search for the SELECT-star pattern with its leading word boundary;
the Boolean argument records whether the previous character is a word
character. -/
def searchSelectStarB : Bool → List Char → Bool
  | _, [] => false
  | prevW, c :: cs =>
    (!prevW && (selectStarAt (c :: cs)).isSome)
    || searchSelectStarB (isWordChar c) cs

/-! ### Pattern 2: non-SARGable predicate -/

/-- Leading keyword alternation of the non-SARGable-predicate pattern
(WHERE, AND or ON, tried in that order, no word boundary). -/
def kwWhereAndOn (cs : List Char) : Option (List Char) :=
  match matchLit "WHERE".toList cs with
  | some r => some r
  | none =>
    match matchLit "AND".toList cs with
    | some r => some r
    | none => matchLit "ON".toList cs

/-- Function-name part of the non-SARGable pattern: one word run with an
optional dot-separated qualifier, optional whitespace, then the opening
parenthesis. -/
def funcNameOpen (cs : List Char) : Option (List Char) := do
  let (_, r) ← word1 cs
  match r with
  | '.' :: r2 => do
    let (_, r3) ← word1 r2
    matchLit ['('] (r3.dropWhile isPySpace)
  | _ => matchLit ['('] (r.dropWhile isPySpace)

/-- Split a character list at the first closing parenthesis: the content
before it and the rest after it. -/
def splitAtClose : List Char → Option (List Char × List Char)
  | [] => none
  | c :: cs =>
    if c = ')' then some ([], cs)
    else
      match splitAtClose cs with
      | some (inner, rest) => some (c :: inner, rest)
      | none => none

/-- Captured qualified column reference inside the parentheses: the word
run ending at the first dot that has word characters on both sides,
the dot, and the word run after it.  The accumulator carries the
current word run reversed. -/
def findColRefCapture : List Char → List Char → Option (List Char)
  | _, [] => none
  | runRev, c :: cs =>
    if c = '.' then
      match runRev, cs with
      | _ :: _, d :: _ =>
        if isWordChar d then
          some (runRev.reverse ++ '.' :: cs.takeWhile isWordChar)
        else findColRefCapture [] cs
      | _, _ => findColRefCapture [] cs
    else if isWordChar c then findColRefCapture (c :: runRev) cs
    else findColRefCapture [] cs

/-- Trailing comparison-operator alternation of the non-SARGable
pattern, alternatives tried in the order they appear in the source. -/
def opAt (cs : List Char) : Option (List Char) :=
  matchLit ['='] cs
  <|> matchLit ['<'] cs
  <|> matchLit ['>'] cs
  <|> matchLit "<=".toList cs
  <|> matchLit ">=".toList cs
  <|> matchLit "<>".toList cs
  <|> matchLit "!=".toList cs
  <|> matchLit "BETWEEN".toList cs
  <|> matchLit "IN".toList cs
  <|> matchLit "LIKE".toList cs
  <|> (do
        let r ← matchLit "NOT".toList cs
        let r ← spaces1 r
        matchLit "IN".toList r)
  <|> (do
        let r ← matchLit "NOT".toList cs
        let r ← spaces1 r
        matchLit "LIKE".toList r)

/-- Anchored match of the whole non-SARGable-predicate pattern: keyword,
whitespace, function name with opening parenthesis, parenthesised
content containing a qualified column reference, the closing
parenthesis, optional whitespace, and a comparison operator.  Returns
the captured column reference and the rest after the match. -/
def nonSargAt (cs : List Char) : Option (List Char × List Char) := do
  let r ← kwWhereAndOn cs
  let r ← spaces1 r
  let r ← funcNameOpen r
  let (inner, r2) ← splitAtClose r
  let cap ← findColRefCapture [] inner
  let r4 ← opAt (r2.dropWhile isPySpace)
  pure (cap, r4)

/-- Fuel-driven left-to-right scan collecting non-overlapping matches of
the non-SARGable pattern, as finditer does; each element is the matched
text together with the captured column reference. -/
def nonSargScanF : Nat → List Char → List (List Char × List Char)
  | 0, _ => []
  | _, [] => []
  | fuel + 1, c :: cs =>
    match nonSargAt (c :: cs) with
    | some (cap, rest) =>
      let n := (c :: cs).length - rest.length
      if n = 0 then nonSargScanF fuel cs
      else ((c :: cs).take n, cap) :: nonSargScanF fuel (List.drop n (c :: cs))
    | none => nonSargScanF fuel cs

/-- All non-SARGable-predicate matches of a character list. -/
def nonSargScan (cs : List Char) : List (List Char × List Char) :=
  nonSargScanF cs.length cs

/-! ### Pattern 3: leading wildcard in a pattern-match literal -/

/-- Anchored match of the case-sensitive guard pattern: the LIKE
keyword, whitespace, a quote and a percent sign. -/
def likeWildcardAt (cs : List Char) : Option Unit := do
  let r ← matchLit "LIKE".toList cs
  let r ← spaces1 r
  match r with
  | q :: p :: _ => if isQuoteCh q && p = '%' then some () else none
  | _ => none

/-- Search for the guard pattern with its leading word boundary, on the
original (case-preserved) query text. -/
def searchLikeWildcardB : Bool → List Char → Bool
  | _, [] => false
  | prevW, c :: cs =>
    (!prevW && (likeWildcardAt (c :: cs)).isSome)
    || searchLikeWildcardB (isWordChar c) cs

/-- Anchored match of the location pattern (case-insensitive): the LIKE
keyword, whitespace, a quote, a percent sign, one or more non-quote
characters, and a closing quote. -/
def likeLiteralAt (cs : List Char) : Option (List Char) := do
  let r ← matchLitCI "LIKE".toList cs
  let r ← spaces1 r
  match r with
  | q :: '%' :: r3 =>
    if isQuoteCh q then
      let run := r3.takeWhile (fun c => !(isQuoteCh c))
      match r3.dropWhile (fun c => !(isQuoteCh c)) with
      | q2 :: r5 =>
        if !run.isEmpty && isQuoteCh q2 then some r5 else none
      | [] => none
    else none
  | _ => none

/-- Matched text of the leftmost occurrence of the location pattern. -/
def searchLikeLiteral (cs : List Char) : Option (List Char) :=
  match searchFirst likeLiteralAt cs with
  | some (st, rest) => some (matchedText st rest)
  | none => none

/-! ### Pattern 4: correlated subquery -/

/-- Earliest occurrence, with a word boundary before it, of either of
two case-insensitive tokens; the Boolean argument is the word-character
status of the previous character.  Returns the rest after the token. -/
def findTok2CI (t1 t2 : List Char) : Bool → List Char → Option (List Char)
  | _, [] => none
  | prevW, c :: cs =>
    match
      (if prevW then none
       else
         match matchLitCI t1 (c :: cs) with
         | some r => some r
         | none => matchLitCI t2 (c :: cs)) with
    | some r => some r
    | none => findTok2CI t1 t2 (isWordChar c) cs

/-- Qualified reference: a word run, a dot, a word run. -/
def qualifiedRef (cs : List Char) : Option (List Char) := do
  let (_, r) ← word1 cs
  match r with
  | '.' :: r2 => do
    let (_, r3) ← word1 r2
    pure r3
  | _ => none

/-- First alternative of the correlation equality: qualified reference,
optional whitespace around the equals sign, qualified reference. -/
def eqAlt1 (cs : List Char) : Option (List Char) := do
  let r ← qualifiedRef cs
  let r ← matchLit ['='] (r.dropWhile isPySpace)
  qualifiedRef (r.dropWhile isPySpace)

/-- Second alternative of the correlation equality: bare word run,
optional whitespace around the equals sign, qualified reference. -/
def eqAlt2 (cs : List Char) : Option (List Char) := do
  let (_, r) ← word1 cs
  let r ← matchLit ['='] (r.dropWhile isPySpace)
  qualifiedRef (r.dropWhile isPySpace)

/-- Search for a correlation equality with a word boundary before it. -/
def findEqPattern : Bool → List Char → Bool
  | _, [] => false
  | prevW, c :: cs =>
    (!prevW && ((eqAlt1 (c :: cs)).isSome || (eqAlt2 (c :: cs)).isSome))
    || findEqPattern (isWordChar c) cs

/-- Anchored match of the correlated-subquery pattern: an opening
parenthesis, optional whitespace, the SELECT keyword and whitespace,
then — inside the content up to the first closing parenthesis — a
FROM-or-WHERE token, later a WHERE-or-JOIN token, and later a
correlation equality, each preceded by a word boundary. -/
def corrSubqueryAt (cs : List Char) : Option Unit := do
  let r ← matchLit ['('] cs
  let r ← matchLitCI "SELECT".toList (r.dropWhile isPySpace)
  let r ← spaces1 r
  let (inner, _) ← splitAtClose r
  let r1 ← findTok2CI "FROM".toList "WHERE".toList false inner
  let r2 ← findTok2CI "WHERE".toList "JOIN".toList true r1
  if findEqPattern true r2 then some () else none

/-- Search for the correlated-subquery pattern at any position. -/
def corrSubquerySearch : List Char → Bool
  | [] => false
  | c :: cs => (corrSubqueryAt (c :: cs)).isSome || corrSubquerySearch cs

/-! ### Pattern 5: aggregate in the WHERE clause -/

/-- Anchored check for the COUNT keyword followed by optional
whitespace and an opening parenthesis. -/
def countOpenAt (cs : List Char) : Bool :=
  match matchLit "COUNT".toList cs with
  | some r => (matchLit ['('] (r.dropWhile isPySpace)).isSome
  | none => false

/-- Scan over non-parenthesis characters for a word-boundary COUNT with
an opening parenthesis; stops at the first opening parenthesis, which
the intervening character class cannot absorb. -/
def scanForCount : Bool → List Char → Bool
  | _, [] => false
  | prevW, c :: cs =>
    if !prevW && countOpenAt (c :: cs) then true
    else if c = '(' then false
    else scanForCount (isWordChar c) cs

/-- Anchored match of the aggregate-in-WHERE pattern: the WHERE keyword,
whitespace, then the scan for COUNT. -/
def countInWhereAt (cs : List Char) : Option Unit := do
  let r ← matchLit "WHERE".toList cs
  let r ← spaces1 r
  if scanForCount false r then some () else none

/-- Search for the aggregate-in-WHERE pattern with its leading word
boundary. -/
def searchCountInWhere : Bool → List Char → Bool
  | _, [] => false
  | prevW, c :: cs =>
    (!prevW && (countInWhereAt (c :: cs)).isSome)
    || searchCountInWhere (isWordChar c) cs

/-! ## Antipattern detector -/

/-- Pydantic model AntipatternInfo. -/
structure AntipatternInfo where
  category : String
  severity : String
  location : String
  issue : String
  recommendation : String
  estimated_impact : String
  deriving Repr, DecidableEq

/-- Response model of detect_query_antipatterns. -/
structure DetectQueryAntipatternsResponse where
  antipatterns_found : List AntipatternInfo
  query_complexity_score : ℚ
  rewrite_priority : String
  suggested_rewrite : Option String
  success : Bool
  error : Option String
  deriving Repr, DecidableEq

/-- Whether the uppercased query contains the SELECT-star construct. -/
def selectStarFlag (query : String) : Bool :=
  searchSelectStarB false (pyUpper query).toList

/-- SELECT-star finding; the location is the leftmost match of the
location pattern on the uppercased query. -/
def selectStarFinding (query : String) : AntipatternInfo :=
  { category := "SELECT_STAR", severity := "MEDIUM",
    location :=
      match searchFirst selectStarLocAt (pyUpper query).toList with
      | some (st, rest) => String.mk (matchedText st rest)
      | none => "",
    issue := "Selecting all columns instead of specific ones",
    recommendation := "Specify only the columns you need: SELECT col1, col2, col3 FROM ...",
    estimated_impact := "Could reduce logical reads by 30-60% depending on table width" }

/-- Matches of the non-SARGable-predicate pattern on the uppercased
query. -/
def nonSargMatchList (query : String) : List (List Char × List Char) :=
  nonSargScan (pyUpper query).toList

/-- Non-SARGable-predicate finding for one match. -/
def nonSargFinding (m : List Char × List Char) : AntipatternInfo :=
  let function_call := pyStripList m.1
  { category := "NON_SARGABLE_PREDICATE", severity := "HIGH",
    location := String.mk (function_call.take 100),
    issue := "Function call on column " ++ String.mk m.2 ++ " prevents index seek",
    recommendation := "Rewrite to avoid function on column side. Options: 1) Create computed column with index: ALTER TABLE ... ADD computed_col AS [function] PERSISTED; CREATE INDEX ... 2) Store data in proper format to avoid conversion function. 3) If possible, reverse the function to the literal side of the comparison.",
    estimated_impact := "Could eliminate table/index scan and use index seek instead" }

/-- Leading-wildcard match: the guarded two-step check of the source,
on the original query text — the case-sensitive guard pattern first,
then the case-insensitive location pattern whose text is returned. -/
def leadingWildcardText (query : String) : Option (List Char) :=
  if searchLikeWildcardB false query.toList then
    searchLikeLiteral query.toList
  else none

/-- Leading-wildcard finding for a matched literal. -/
def leadingWildcardFinding (txt : List Char) : AntipatternInfo :=
  { category := "LEADING_WILDCARD", severity := "HIGH",
    location := String.mk txt,
    issue := "Leading wildcard in LIKE prevents index seek",
    recommendation := "Remove leading wildcard if possible, or consider full-text search",
    estimated_impact := "Forces table/index scan instead of seek" }

/-- Whether the original query matches the correlated-subquery
pattern. -/
def corrSubqueryFlag (query : String) : Bool :=
  corrSubquerySearch query.toList

/-- Correlated-subquery finding (fixed location text in the source). -/
def corrSubqueryFinding : AntipatternInfo :=
  { category := "CORRELATED_SUBQUERY", severity := "HIGH",
    location := "(SELECT ... FROM ... WHERE outer.col = inner.col)",
    issue := "Correlated subquery may execute once per outer row",
    recommendation := "Rewrite as JOIN or use APPLY operator",
    estimated_impact := "Could eliminate thousands of subquery executions" }

/-- Whether the uppercased query matches the aggregate-in-WHERE
pattern. -/
def countWhereFlag (query : String) : Bool :=
  searchCountInWhere false (pyUpper query).toList

/-- Aggregate-in-WHERE finding. -/
def countWhereFinding : AntipatternInfo :=
  { category := "SCALAR_UDF", severity := "MEDIUM",
    location := "WHERE ... COUNT(...)",
    issue := "Aggregate function in WHERE clause (should be in HAVING)",
    recommendation := "Move aggregate to HAVING clause or use subquery",
    estimated_impact := "May cause query compilation failure or inefficient execution" }

/-- Missing-statistics finding produced per columns-without-statistics
warning of the plan. -/
def missingStatsFinding : AntipatternInfo :=
  { category := "MISSING_STATISTICS", severity := "HIGH",
    location := "Execution Plan Warning",
    issue := "Columns without statistics found in execution plan",
    recommendation := "Update statistics or create statistics on referenced columns",
    estimated_impact := "Poor cardinality estimates leading to suboptimal plans" }

/-- Findings produced from the query text, in the fixed order of the
source. -/
def textFindings (query : String) : List AntipatternInfo :=
  (if selectStarFlag query then [selectStarFinding query] else [])
  ++ (nonSargMatchList query).map nonSargFinding
  ++ (match leadingWildcardText query with
      | some t => [leadingWildcardFinding t]
      | none => [])
  ++ (if corrSubqueryFlag query then [corrSubqueryFinding] else [])
  ++ (if countWhereFlag query then [countWhereFinding] else [])

/-- Score contribution of the leading-wildcard check. -/
def leadingWildcardScore (query : String) : ℚ :=
  match leadingWildcardText query with
  | some _ => 1
  | none => 0

/-- Complexity-score contribution of the text checks: one half for
SELECT-star, three halves per non-SARGable match, one for a leading
wildcard, two for a correlated subquery, one for an aggregate in
WHERE. -/
def textScore (query : String) : ℚ :=
  (if selectStarFlag query then 1 / 2 else 0)
  + (3 / 2) * ((nonSargMatchList query).length : ℚ)
  + leadingWildcardScore query
  + (if corrSubqueryFlag query then 2 else 0)
  + (if countWhereFlag query then 1 else 0)

/-- Findings produced from the plan: a parse error is caught and yields
none; otherwise one missing-statistics finding per
columns-without-statistics warning. -/
def planFindings : Option PlanXmlDoc → List AntipatternInfo
  | none => []
  | some .malformed => []
  | some (.wellFormed c) => List.replicate c.noStatsWarningCount missingStatsFinding

/-- Complexity-score contribution of the plan: three halves per
missing-statistics warning and one half per scan-classified operator
with more than 10000 estimated rows. -/
def planScore : Option PlanXmlDoc → ℚ
  | none => 0
  | some .malformed => 0
  | some (.wellFormed c) =>
    (3 / 2) * (c.noStatsWarningCount : ℚ)
    + (1 / 2) * (((c.scanEstimates.filter (fun e => e > 10000)).length : ℚ))

/-- Rewrite-priority computation of the source: any HIGH finding, else
any MEDIUM finding, else any finding, else none. -/
def rewritePriorityOf (fs : List AntipatternInfo) : String :=
  if fs.any (fun a => a.severity == "HIGH") then "HIGH"
  else if fs.any (fun a => a.severity == "MEDIUM") then "MEDIUM"
  else if !fs.isEmpty then "LOW"
  else "NONE"

/-- Embedding of `detect_query_antipatterns`: the five text checks in
their fixed order, the plan-derived findings, the complexity score
accumulated from 1.0 and capped at 10.0, and the rewrite priority. -/
def detect_query_antipatterns (query : String)
    (execution_plan_xml : Option PlanXmlDoc) : DetectQueryAntipatternsResponse :=
  let antipatterns := textFindings query ++ planFindings execution_plan_xml
  let complexity_score : ℚ := 1 + textScore query + planScore execution_plan_xml
  { antipatterns_found := antipatterns,
    query_complexity_score := min complexity_score 10,
    rewrite_priority := rewritePriorityOf antipatterns,
    suggested_rewrite := none,
    success := true, error := none }

/-! ## Missing index advisor -/

/-- A Python value as passed to a pydantic list-of-strings field: the
DMV path passes real lists, the plan path passes a joined string or
None. -/
inductive PyVal where
  | vNone
  | vStr (s : String)
  | vList (xs : List String)
  deriving Repr, DecidableEq

/-- Pydantic validation of a `list[str]` field: only an actual list is
accepted; a string or None raises a validation error. -/
def validateStrList : PyVal → Except String (List String)
  | .vList xs => .ok xs
  | _ => .error "Input should be a valid list"

/-- Pydantic model MissingIndexInfo. -/
structure MissingIndexInfo where
  table : String
  equality_columns : List String
  inequality_columns : List String
  included_columns : List String
  impact_score : ℚ
  avg_user_impact : ℚ
  avg_total_user_cost : ℚ
  user_seeks : Int
  user_scans : Int
  last_user_seek : Option String
  create_statement : String
  estimated_size_mb : ℚ
  recommendation_priority : String
  considerations : List String
  deriving Repr, DecidableEq

/-- Construction of a MissingIndexInfo through pydantic validation of
its three list-of-strings column fields. -/
def mkMissingIndexInfo (table : String) (eqv ineqv incv : PyVal)
    (impact_score avg_user_impact avg_total_user_cost : ℚ)
    (user_seeks user_scans : Int) (last_user_seek : Option String)
    (create_statement : String) (estimated_size_mb : ℚ)
    (recommendation_priority : String) (considerations : List String) :
    Except String MissingIndexInfo := do
  let e ← validateStrList eqv
  let i ← validateStrList ineqv
  let n ← validateStrList incv
  .ok { table := table, equality_columns := e, inequality_columns := i,
        included_columns := n, impact_score := impact_score,
        avg_user_impact := avg_user_impact,
        avg_total_user_cost := avg_total_user_cost,
        user_seeks := user_seeks, user_scans := user_scans,
        last_user_seek := last_user_seek,
        create_statement := create_statement,
        estimated_size_mb := estimated_size_mb,
        recommendation_priority := recommendation_priority,
        considerations := considerations }

/-- Row of the DMV missing-index query (Source A). -/
structure DmvRow where
  table_name : String
  equality_columns : Option String
  inequality_columns : Option String
  included_columns : Option String
  avg_user_impact : ℚ
  avg_total_user_cost : ℚ
  user_seeks : Int
  user_scans : Int
  last_user_seek : Option String
  impact_score : ℚ
  deriving Repr, DecidableEq

/-- Column-list splitting of the DMV path: a falsy (absent or empty)
value gives the empty list, otherwise the string is split on a comma
followed by a space. -/
def pySplitCols : Option String → List String
  | none => []
  | some s => if s.isEmpty then [] else pySplit s ", "

/-- Bracket-stripping by global replacement, as the DMV path does on
column names inside the index name. -/
def replaceBrackets (s : String) : String :=
  pyReplace (pyReplace s "[" "") "]" ""

/-- Source A processing of one DMV row: normalisation of the table
name, column splitting, priority thresholds, CREATE INDEX synthesis and
considerations, ending in the validated model construction (the column
fields are genuine lists here). -/
def processDmvRow (database_name : String) (row : DmvRow) :
    Except String MissingIndexInfo :=
  let table_name :=
    pyReplace (pyReplace (pyReplace row.table_name
      ("[" ++ database_name ++ "].") "") "[" "") "]" ""
  let equality_cols := pySplitCols row.equality_columns
  let inequality_cols := pySplitCols row.inequality_columns
  let included_cols := pySplitCols row.included_columns
  let impact_score := row.impact_score
  let priority :=
    if impact_score > 100000 ∧ row.user_seeks > 1000 then "HIGH"
    else if impact_score > 10000 then "MEDIUM"
    else "LOW"
  let index_name := "IX_" ++ ((pySplit table_name ".").getLastD "") ++ "_"
    ++ pyJoin "_" ((equality_cols.take 3).map replaceBrackets)
  let key_columns := pyJoin ", " (equality_cols ++ inequality_cols)
  let create_statement :=
    "CREATE NONCLUSTERED INDEX " ++ index_name ++ " ON " ++ table_name
    ++ " (" ++ key_columns ++ ")"
    ++ (if !included_cols.isEmpty then
          " INCLUDE (" ++ pyJoin ", " included_cols ++ ")"
        else "")
  let considerations :=
    (if impact_score < 1000 then
       ["Low impact score - verify query frequency before creating"]
     else [])
    ++ (if equality_cols.length + inequality_cols.length > 5 then
          ["Wide index key - may have high maintenance overhead"]
        else [])
  mkMissingIndexInfo table_name (.vList equality_cols)
    (.vList inequality_cols) (.vList included_cols) impact_score
    row.avg_user_impact row.avg_total_user_cost row.user_seeks
    row.user_scans row.last_user_seek create_statement (1 / 10) priority
    considerations

/-- Joined column value of the plan path: the joined string when the
list is nonempty, None otherwise — never a list. -/
def joinOrNone (cols : List String) : PyVal :=
  if cols.isEmpty then .vNone else .vStr (pyJoin ", " cols)

/-- Column names of the groups carrying a given Usage tag, in document
order, bracket-stripped. -/
def collectUsage (tag : String) (gs : List ColumnGroupX) : List String :=
  gs.flatMap (fun g =>
    if g.usage = tag then g.columns.map (pyStripSet ['[', ']']) else [])

/-- Decimal rendering used in the plan-path consideration text; the
value never becomes observable because the construction below always
fails validation, so a plain rational rendering stands in for the
one-decimal float format. -/
def formatImpact (q : ℚ) : String := toString q

/-- Source B processing of one missing-index group: skipped (None) when
the nested MissingIndex element is absent or the table name is empty;
otherwise the validated model construction, whose column arguments are
joined strings or None and therefore fail pydantic validation. -/
def planGroupStep (g : MissingIndexGroupX) :
    Option (Except String MissingIndexInfo) :=
  match g.missingIndex with
  | none => none
  | some mi =>
    let schema := pyStripSet ['[', ']'] mi.schemaName
    let table := pyStripSet ['[', ']'] mi.table
    let table_name :=
      if !schema.isEmpty && !table.isEmpty then schema ++ "." ++ table else ""
    if table_name.isEmpty then none
    else
      let equality_cols := collectUsage "EQUALITY" mi.columnGroups
      let inequality_cols := collectUsage "INEQUALITY" mi.columnGroups
      let included_cols := collectUsage "INCLUDE" mi.columnGroups
      let index_name :=
        if !equality_cols.isEmpty then
          "IX_" ++ table ++ "_" ++ pyJoin "_" (equality_cols.take 2)
        else "IX_" ++ table ++ "_Suggested"
      let key_columns := pyJoin ", " (equality_cols ++ inequality_cols)
      let include_clause :=
        if !included_cols.isEmpty then
          " INCLUDE (" ++ pyJoin ", " included_cols ++ ")"
        else ""
      let create_statement :=
        "CREATE INDEX " ++ index_name ++ " ON " ++ table_name ++ " ("
        ++ key_columns ++ ")" ++ include_clause ++ ";"
      let priority :=
        if g.impact ≥ 90 then "CRITICAL"
        else if g.impact ≥ 50 then "HIGH"
        else if g.impact ≥ 20 then "MEDIUM"
        else "LOW"
      let considerations :=
        ["From execution plan analysis (impact: " ++ formatImpact g.impact ++ "%)",
         "Query-specific recommendation - validate against overall workload"]
      some (mkMissingIndexInfo table_name (joinOrNone equality_cols)
        (joinOrNone inequality_cols) (joinOrNone included_cols)
        (g.impact * 1000) g.impact 0 0 0 none create_statement 0 priority
        considerations)

/-- Sequential processing of the plan groups: a skipped group continues,
a successful construction is appended, and a validation error aborts
the loop — the surrounding handler keeps what was accumulated. -/
def processPlanGroups (acc : List MissingIndexInfo) :
    List MissingIndexGroupX → List MissingIndexInfo
  | [] => acc
  | g :: gs =>
    match planGroupStep g with
    | none => processPlanGroups acc gs
    | some (.ok info) => processPlanGroups (acc ++ [info]) gs
    | some (.error _) => acc

/-- Plan section of analyze_missing_indexes: absent plan and parse
errors leave the list unchanged (the exception is caught and logged);
a well-formed plan feeds its missing-index groups into the loop. -/
def applyPlanSection (acc : List MissingIndexInfo) :
    Option PlanXmlDoc → List MissingIndexInfo
  | none => acc
  | some .malformed => acc
  | some (.wellFormed c) => processPlanGroups acc c.missingIndexGroups

/-- Row of the existing-index-usage query. -/
structure ExistingIndexRow where
  table_name : String
  index_name : String
  user_seeks : Int
  user_scans : Int
  user_lookups : Int
  user_updates : Int
  last_user_seek : Option String
  size_mb : ℚ
  deriving Repr, DecidableEq

/-- Pydantic model ExistingIndexUsage. -/
structure ExistingIndexUsage where
  table : String
  index_name : String
  user_seeks : Int
  user_scans : Int
  user_lookups : Int
  user_updates : Int
  last_user_seek : Option String
  size_mb : ℚ
  recommendation : Option String
  action : Option String
  deriving Repr, DecidableEq

/-- Existing-index recommendation thresholds of the source. -/
def processExistingRow (row : ExistingIndexRow) : ExistingIndexUsage :=
  let total_reads := row.user_seeks + row.user_scans + row.user_lookups
  let updates := row.user_updates
  let ra : Option String × Option String :=
    if total_reads = 0 ∧ updates > 100 then
      (some "Unused index with high update overhead - consider dropping",
       some ("DROP INDEX " ++ row.index_name ++ " ON " ++ row.table_name))
    else if total_reads < 10 ∧ updates > 1000 then
      (some "Very low read benefit vs update cost - review for removal", none)
    else (none, none)
  { table := row.table_name, index_name := row.index_name,
    user_seeks := row.user_seeks, user_scans := row.user_scans,
    user_lookups := row.user_lookups, user_updates := row.user_updates,
    last_user_seek := row.last_user_seek, size_mb := row.size_mb,
    recommendation := ra.1, action := ra.2 }

/-- Pydantic model IndexOverlap (never populated by the code). -/
structure IndexOverlap where
  existing_index : String
  columns : List String
  missing_index_recommendation : String
  recommendation : String
  deriving Repr, DecidableEq

/-- Response model of analyze_missing_indexes. -/
structure AnalyzeMissingIndexesResponse where
  missing_indexes : List MissingIndexInfo
  existing_index_usage : List ExistingIndexUsage
  index_overlaps : List IndexOverlap
  success : Bool
  error : Option String
  deriving Repr, DecidableEq

/-- Oracle for the database interactions of analyze_missing_indexes:
the DMV missing-index query and the existing-index-usage query, each
possibly raising. -/
structure MissingIdxOracle where
  dmvRows : Except String (List DmvRow)
  existingRows : Except String (List ExistingIndexRow)

/-- Failure envelope of analyze_missing_indexes. -/
def missingIdxFailEnvelope (e : String) : AnalyzeMissingIndexesResponse :=
  { missing_indexes := [], existing_index_usage := [], index_overlaps := [],
    success := false, error := some e }

/-- Embedding of `analyze_missing_indexes`: Source A recommendations
from the DMV rows first, then the plan section extends the same list
inside its own exception handler, then the existing-index usage; an
exception outside that handler produces the failure envelope. -/
def analyze_missing_indexes (database_name : String)
    (execution_plan_xml : Option PlanXmlDoc) (o : MissingIdxOracle) :
    AnalyzeMissingIndexesResponse :=
  match o.dmvRows with
  | .error e => missingIdxFailEnvelope e
  | .ok rows =>
    match rows.mapM (processDmvRow database_name) with
    | .error e => missingIdxFailEnvelope e
    | .ok sourceA =>
      let missing_indexes := applyPlanSection sourceA execution_plan_xml
      match o.existingRows with
      | .error e => missingIdxFailEnvelope e
      | .ok erows =>
        { missing_indexes := missing_indexes,
          existing_index_usage := erows.map processExistingRow,
          index_overlaps := [], success := true, error := none }

/-! ## Claim-side definitions

These definitions render statements of the specification in its own
words, for comparison with the embedded code. -/

/-- Claim-side bottleneck function, phrased from the specification:
when logical_reads > 0, CPU_BOUND if the cpu percentage (taken as 0
when duration_ms = 0) exceeds 70, else IO_BOUND if physical_reads
exceeds 0.1 times logical_reads, else MEMORY_BOUND; when
logical_reads = 0, UNKNOWN for duration_ms > 1000 and no
classification otherwise. -/
def claimBottleneckClass (cpu dur phys logic : Int) : Option String :=
  if logic > 0 then
    let pct : ℚ := if dur = 0 then 0 else (cpu : ℚ) / (dur : ℚ) * 100
    if pct > 70 then some "CPU_BOUND"
    else if (phys : ℚ) > (1 / 10 : ℚ) * (logic : ℚ) then some "IO_BOUND"
    else some "MEMORY_BOUND"
  else if dur > 1000 then some "UNKNOWN"
  else none

/-- Claim-side rewrite priority, phrased from the specification: HIGH
if at least one finding has severity HIGH, else MEDIUM if at least one
finding has severity MEDIUM, else LOW if the finding list is nonempty,
else NONE. -/
def claimRewritePriority (fs : List AntipatternInfo) : String :=
  if ∃ a ∈ fs, a.severity = "HIGH" then "HIGH"
  else if ∃ a ∈ fs, a.severity = "MEDIUM" then "MEDIUM"
  else if fs ≠ [] then "LOW"
  else "NONE"

/-- Anchored case-insensitive match of a pattern-match operator whose
literal starts with a wildcard: the LIKE keyword in any case,
whitespace, a quote and a percent sign. -/
def likeWildcardAtCI (cs : List Char) : Option Unit := do
  let r ← matchLitCI "LIKE".toList cs
  let r ← spaces1 r
  match r with
  | q :: p :: _ => if isQuoteCh q && p = '%' then some () else none
  | _ => none

/-- Claim-side containment check following the specification words: the
query text contains a pattern-match (LIKE) operator — keyword matched
case-insensitively, as SQL keywords are — whose literal starts with the
percent wildcard. -/
def specContainsLeadingWildcardLike (query : String) : Bool :=
  query.toList.tails.any (fun cs => (likeWildcardAtCI cs).isSome)

/-! ## Concrete example inputs -/

/-- DMV missing-index row recommending an equality index on
CustomerID of dbo.Orders. -/
def exampleDmvRow : DmvRow :=
  { table_name := "[TestDB].[dbo].[Orders]",
    equality_columns := some "[CustomerID]",
    inequality_columns := none, included_columns := none,
    avg_user_impact := 80, avg_total_user_cost := 10, user_seeks := 500,
    user_scans := 0, last_user_seek := none, impact_score := 400000 }

/-- Plan missing-index hint recommending the same equality index on
CustomerID of dbo.Orders. -/
def exampleMissingElem : MissingIndexElem :=
  { database := "[TestDB]", schemaName := "[dbo]", table := "[Orders]",
    columnGroups := [{ usage := "EQUALITY", columns := ["[CustomerID]"] }] }

/-- Missing-index group wrapping the hint with an 85 percent impact. -/
def exampleMissingGroup : MissingIndexGroupX :=
  { impact := 85, missingIndex := some exampleMissingElem }

/-- Well-formed plan content carrying exactly the one missing-index
hint. -/
def examplePlanContent : PlanContent :=
  { runtime := none, missingIndexGroups := [exampleMissingGroup],
    noStatsWarningCount := 0, scanEstimates := [] }

/-- Statistics row with ten-day-old statistics and a 55 percent
modification rate. -/
def exampleStatRow : StatRow :=
  { index_name := none, statistics_name := "stat1",
    last_updated := "2026-01-01 00:00:00", days_old := some 10,
    rows_in_table := 100, rows_sampled := 100,
    sampling_percent := some 100, modification_counter := 55,
    modification_percent := some 55 }

/-- Query whose pattern-match operator is written in lower case with a
leading-wildcard literal. -/
def exampleLowercaseLikeQuery : String :=
  "select * from t where name like \x27%abc\x27"

/-- Query whose upper-case pattern-match operator has a
leading-wildcard literal. -/
def exampleUppercaseLikeQuery : String :=
  "SELECT Name FROM T WHERE Name LIKE \x27%abc\x27"

/-- Statistics-health oracle serving the example row for every table. -/
def exampleStatsOracle : StatsHealthOracle :=
  { dbConfig := .ok [(true, true)], statsRows := fun _ => .ok [exampleStatRow] }

/-- Execution oracle whose query execution fails; used where the oracle
must not be reached. -/
def exampleExecOracle : ExecOracle :=
  { run := .error "not executed", hashRows := none }

/-- Execution oracle of a successful run with no captured plan and a
half-second wall clock. -/
def exampleFallbackOracle : ExecOracle :=
  { run := .ok { resultsCount := 3, plan := none, executionTimeMs := 500 },
    hashRows := none }

/-! ## Helper lemmas -/

/-- Per-row characterisation of the statistics thresholds. -/
theorem mkStatRowAnalysis_props (t : String) (r : StatRow)
    (a : StatisticsAnalysis) (ha : a = mkStatRowAnalysis t r) :
    (a.needs_update = true ↔ (30 < a.days_old ∨ 20 < a.modification_percent)) ∧
    ((a.severity = "HIGH") ↔ (50 < a.modification_percent ∨ 90 < a.days_old)) ∧
    (a.severity = "HIGH" → a.recommendation =
      some ("UPDATE STATISTICS " ++ a.table ++ " WITH FULLSCAN;")) ∧
    ((a.severity = "WARNING") ↔
      (a.needs_update = true ∧ ¬(50 < a.modification_percent ∨ 90 < a.days_old))) ∧
    ((a.severity = "OK") ↔ a.needs_update = false) ∧
    (a.needs_update = false → a.recommendation = none) := by
  subst ha
  simp only [mkStatRowAnalysis]
  split_ifs with h1 h2
  · simp
    exact ⟨h1, h2, fun hmp => h2.resolve_left (not_lt.mpr hmp)⟩
  · simp
    push_neg at h2
    exact ⟨h1, h2.1, h2.2⟩
  · simp
    push_neg at h1
    exact ⟨⟨h1.1, h1.2⟩, le_trans h1.2 (by norm_num), le_trans h1.1 (by norm_num)⟩

/-- The source rewrite-priority computation agrees with the
specification phrasing for every finding list. -/
theorem rewritePriorityOf_eq_claim (fs : List AntipatternInfo) :
    rewritePriorityOf fs = claimRewritePriority fs := by
  unfold rewritePriorityOf claimRewritePriority
  by_cases hH : ∃ a ∈ fs, a.severity = "HIGH"
  · rw [if_pos (show (fs.any (fun a => a.severity == "HIGH")) = true by simpa using hH),
      if_pos hH]
  · rw [if_neg (show ¬((fs.any (fun a => a.severity == "HIGH")) = true) by simpa using hH),
      if_neg hH]
    by_cases hM : ∃ a ∈ fs, a.severity = "MEDIUM"
    · rw [if_pos (show (fs.any (fun a => a.severity == "MEDIUM")) = true by simpa using hM),
        if_pos hM]
    · rw [if_neg (show ¬((fs.any (fun a => a.severity == "MEDIUM")) = true) by simpa using hM),
        if_neg hM]
      by_cases hE : fs = []
      · subst hE; rfl
      · rw [if_pos (show (!fs.isEmpty) = true by simpa using hE), if_pos hE]

/-! ## Claim theorems -/

/-- C3: the bottleneck classification is the pure function of
(cpu_time_ms, duration_ms, physical_reads, logical_reads) given by the
specification, with strict boundary comparisons; in particular
cpu_time_ms = 71 and duration_ms = 100 with positive logical reads
classify as CPU_BOUND. -/
theorem C3_bottleneck_pure_function (m : ExecutionMetrics)
    (hdur : 0 ≤ m.duration_ms) :
    bottleneckType m =
      claimBottleneckClass m.cpu_time_ms m.duration_ms m.physical_reads
        m.logical_reads
    ∧ (m.cpu_time_ms = 71 → m.duration_ms = 100 → m.logical_reads > 0 →
        bottleneckType m = some "CPU_BOUND") := by
  constructor
  · have hpct : (if m.duration_ms > 0 then
          (m.cpu_time_ms : ℚ) / (m.duration_ms : ℚ) * 100 else 0)
        = (if m.duration_ms = 0 then 0
           else (m.cpu_time_ms : ℚ) / (m.duration_ms : ℚ) * 100) := by
      rcases eq_or_lt_of_le hdur with h | h
      · rw [if_neg (by omega), if_pos h.symm]
      · rw [if_pos h, if_neg (by omega)]
    have hio : ((m.physical_reads : ℚ) > (m.logical_reads : ℚ) * (1 / 10)) ↔
        ((m.physical_reads : ℚ) > (1 / 10 : ℚ) * (m.logical_reads : ℚ)) := by
      rw [mul_comm]
    simp only [bottleneckType, claimBottleneckClass, hpct, hio]
  · intro h71 h100 hl
    simp only [bottleneckType, if_pos hl, h71, h100]
    norm_num

/-- C3 witness: a concrete metrics record with 71 ms of CPU over a
100 ms duration and positive logical reads is CPU_BOUND, and matches
the claim-side function. -/
theorem C3_bottleneck_witness :
    bottleneckType
        { duration_ms := 100, cpu_time_ms := 71, logical_reads := 5,
          physical_reads := 0, read_ahead_reads := 0, lob_logical_reads := 0,
          lob_physical_reads := 0, row_count := 0, estimated_cost := 0 } =
      claimBottleneckClass 71 100 0 5
    ∧ bottleneckType
        { duration_ms := 100, cpu_time_ms := 71, logical_reads := 5,
          physical_reads := 0, read_ahead_reads := 0, lob_logical_reads := 0,
          lob_physical_reads := 0, row_count := 0, estimated_cost := 0 } =
      some "CPU_BOUND" := by
  have h := C3_bottleneck_pure_function
    { duration_ms := 100, cpu_time_ms := 71, logical_reads := 5,
      physical_reads := 0, read_ahead_reads := 0, lob_logical_reads := 0,
      lob_physical_reads := 0, row_count := 0, estimated_cost := 0 }
    (by norm_num)
  exact ⟨h.1, h.2 rfl rfl (by norm_num)⟩

/-- C7: every statistics row analyzed by get_query_statistics_health
has needs_update exactly when days_old exceeds 30 or the modification
percentage exceeds 20; severity HIGH with the full-scan command exactly
when the modification percentage exceeds 50 or days_old exceeds 90;
WARNING when an update is needed but the HIGH condition fails; OK with
no recommendation otherwise. -/
theorem C7_statistics_thresholds (db : String) (tn : Option (List String))
    (xml : Option String) (o : StatsHealthOracle) (a : StatisticsAnalysis)
    (ha : a ∈ (get_query_statistics_health db tn xml o).statistics_analysis) :
    (a.needs_update = true ↔ (30 < a.days_old ∨ 20 < a.modification_percent)) ∧
    ((a.severity = "HIGH") ↔ (50 < a.modification_percent ∨ 90 < a.days_old)) ∧
    (a.severity = "HIGH" → a.recommendation =
      some ("UPDATE STATISTICS " ++ a.table ++ " WITH FULLSCAN;")) ∧
    ((a.severity = "WARNING") ↔
      (a.needs_update = true ∧ ¬(50 < a.modification_percent ∨ 90 < a.days_old))) ∧
    ((a.severity = "OK") ↔ a.needs_update = false) ∧
    (a.needs_update = false → a.recommendation = none) := by
  simp only [get_query_statistics_health] at ha
  split at ha
  · simp [pyTruthyStrList] at ha
  · split at ha
    · simp at ha
    · simp only [List.mem_flatMap] at ha
      obtain ⟨t, -, ha⟩ := ha
      rcases hrows : o.statsRows t with e | rows <;> rw [hrows] at ha
      · simp at ha
      · simp only [List.mem_map] at ha
        obtain ⟨r, -, hr⟩ := ha
        exact mkStatRowAnalysis_props t r a hr.symm

/-- C7 witness: applying the row characterisation to a concrete
analysis of a row with modification_percent 55 and days_old 10 shows
needs_update and severity HIGH. -/
theorem C7_statistics_witness :
    (mkStatRowAnalysis "dbo.Orders" exampleStatRow).needs_update = true ∧
    (mkStatRowAnalysis "dbo.Orders" exampleStatRow).severity = "HIGH" := by
  have h := C7_statistics_thresholds "TestDB" (some ["dbo.Orders"]) none
    exampleStatsOracle (mkStatRowAnalysis "dbo.Orders" exampleStatRow)
    (by decide)
  exact ⟨h.1.mpr (by decide), h.2.1.mpr (by decide)⟩

/-- C9: a query whose stripped upper-cased text starts with neither
SELECT nor WITH yields the failure envelope with null payload fields,
independently of the database oracle — the query is never executed. -/
theorem C9_select_only_guard (q : String) (dbn : Option String) (iap : Bool)
    (mx : Int) (o : ExecOracle)
    (h1 : pyStartsWith (pyUpper (pyStrip q)) "SELECT" = false)
    (h2 : pyStartsWith (pyUpper (pyStrip q)) "WITH" = false) :
    analyze_query_execution q dbn iap mx o =
      { execution_metrics := none, execution_plan_xml := none,
        execution_plan_summary := none, wait_statistics := none,
        bottleneck_type := none, query_hash := none, query_plan_hash := none,
        success := false,
        error := some "Only SELECT queries are allowed for analysis" } := by
  simp only [analyze_query_execution, h1, h2]
  rfl

/-- C9 witness: the guard fires on a DROP statement with an oracle that
would fail if consulted. -/
theorem C9_select_only_witness :
    analyze_query_execution "DROP TABLE Users" none true 30 exampleExecOracle =
      { execution_metrics := none, execution_plan_xml := none,
        execution_plan_summary := none, wait_statistics := none,
        bottleneck_type := none, query_hash := none, query_plan_hash := none,
        success := false,
        error := some "Only SELECT queries are allowed for analysis" } :=
  C9_select_only_guard "DROP TABLE Users" none true 30 exampleExecOracle
    (by decide) (by decide)

/-- C10: with table_names absent or empty, get_query_statistics_health
returns the structured failure envelope even when a plan XML is
supplied — no table names are derived from the plan. -/
theorem C10_table_names_required (db : String) (tn : Option (List String))
    (xml : Option String) (o : StatsHealthOracle)
    (h : tn = none ∨ tn = some []) :
    get_query_statistics_health db tn xml o =
      { statistics_analysis := [], cardinality_mismatches := [],
        auto_update_stats_enabled := false, auto_create_stats_enabled := false,
        success := false,
        error := some "Either table_names or execution_plan_xml must be provided" } := by
  have htn : pyTruthyStrList tn = false := by
    rcases h with h | h <;> subst h <;> rfl
  simp only [get_query_statistics_health, htn]
  rcases hx : pyTruthyStr xml
  · simp [htn]
  · simp [pyTruthyStrList]

/-- C10 witness: a call with no table names and a nonempty plan XML
still fails with the validation envelope. -/
theorem C10_table_names_witness :
    get_query_statistics_health "TestDB" none
        (some "<ShowPlanXML></ShowPlanXML>") exampleStatsOracle =
      { statistics_analysis := [], cardinality_mismatches := [],
        auto_update_stats_enabled := false, auto_create_stats_enabled := false,
        success := false,
        error := some "Either table_names or execution_plan_xml must be provided" } :=
  C10_table_names_required "TestDB" none (some "<ShowPlanXML></ShowPlanXML>")
    exampleStatsOracle (Or.inl rfl)

/-- Source A construction of a DMV row always passes validation, since
the column fields are genuine lists. -/
theorem processDmvRow_isOk (db : String) (r : DmvRow) :
    ∃ info, processDmvRow db r = Except.ok info := ⟨_, rfl⟩

/-- Mapping the Source A construction over any row list succeeds. -/
theorem mapM_processDmvRow_isOk (db : String) (rows : List DmvRow) :
    ∃ infos, rows.mapM (processDmvRow db) = Except.ok infos := by
  induction rows with
  | nil => exact ⟨[], rfl⟩
  | cons r rs ih =>
    obtain ⟨infos, hinfos⟩ := ih
    obtain ⟨info, hinfo⟩ := processDmvRow_isOk db r
    exact ⟨info :: infos, by rw [List.mapM_cons, hinfo, hinfos]; rfl⟩

/-- C2 (amended): when the query passes the guard and no runtime
statistics are available (no plan, or parsing yields nothing), the
metrics path succeeds with zeroed cost fields and wall-clock duration,
and the bottleneck is UNKNOWN when the duration exceeds 1000 ms and
null otherwise. -/
theorem C2_absent_plan_fallback (q : String) (dbn : Option String) (iap : Bool)
    (mx : Int) (d : ExecData) (hr : Option (Option String × Option String))
    (hsel : pyStartsWith (pyUpper (pyStrip q)) "SELECT" = true)
    (hplan : (match d.plan with
              | some doc => _parse_runtime_stats_from_plan doc
              | none => none) = (none : Option RuntimeStatsRaw)) :
    (analyze_query_execution q dbn iap mx
        { run := .ok d, hashRows := hr }).success = true ∧
    (analyze_query_execution q dbn iap mx
        { run := .ok d, hashRows := hr }).execution_metrics =
      some { duration_ms := d.executionTimeMs, cpu_time_ms := 0,
             logical_reads := 0, physical_reads := 0, read_ahead_reads := 0,
             lob_logical_reads := 0, lob_physical_reads := 0,
             row_count := (d.resultsCount : Int), estimated_cost := 0 } ∧
    (analyze_query_execution q dbn iap mx
        { run := .ok d, hashRows := hr }).bottleneck_type =
      (if d.executionTimeMs > 1000 then some "UNKNOWN" else none) := by
  refine ⟨?_, ?_, ?_⟩ <;>
    simp [analyze_query_execution, hsel, hplan, bottleneckType]

/-- C2 counterexample: a successful execution with no plan and a 500 ms
wall clock yields a null bottleneck — neither MEMORY_BOUND nor UNKNOWN,
refuting the claimed dichotomy. -/
theorem C2_counterexample :
    (analyze_query_execution "SELECT 1 FROM T" none true 30
        exampleFallbackOracle).success = true ∧
    (analyze_query_execution "SELECT 1 FROM T" none true 30
        exampleFallbackOracle).bottleneck_type = none ∧
    ¬((analyze_query_execution "SELECT 1 FROM T" none true 30
          exampleFallbackOracle).bottleneck_type = some "MEMORY_BOUND" ∨
      (analyze_query_execution "SELECT 1 FROM T" none true 30
          exampleFallbackOracle).bottleneck_type = some "UNKNOWN") := by
  decide

/-- C2 witness: the amended statement at a concrete 500 ms execution
without a plan. -/
theorem C2_absent_plan_witness :
    (analyze_query_execution "SELECT 1 FROM T" none true 30
        exampleFallbackOracle).success = true ∧
    (analyze_query_execution "SELECT 1 FROM T" none true 30
        exampleFallbackOracle).execution_metrics =
      some { duration_ms := 500, cpu_time_ms := 0, logical_reads := 0,
             physical_reads := 0, read_ahead_reads := 0,
             lob_logical_reads := 0, lob_physical_reads := 0,
             row_count := 3, estimated_cost := 0 } ∧
    (analyze_query_execution "SELECT 1 FROM T" none true 30
        exampleFallbackOracle).bottleneck_type = none := by
  have h := C2_absent_plan_fallback "SELECT 1 FROM T" none true 30
    { resultsCount := 3, plan := none, executionTimeMs := 500 } none
    (by decide) rfl
  exact ⟨h.1, h.2.1, by simpa using h.2.2⟩

/-- C6: malformed plan XML never raises: runtime-stat parsing yields
None, the metrics path behaves exactly as with an absent plan, and
analyze_missing_indexes behaves exactly as with an absent plan, still
returning its DMV-sourced recommendations with success. -/
theorem C6_malformed_plan_degrades :
    (_parse_runtime_stats_from_plan .malformed = none) ∧
    (∀ (q : String) (dbn : Option String) (iap : Bool) (mx : Int) (n : Nat)
        (t : Int) (hr : Option (Option String × Option String)),
      (analyze_query_execution q dbn iap mx
          { run := .ok { resultsCount := n, plan := some .malformed,
                         executionTimeMs := t },
            hashRows := hr }).execution_metrics =
        (analyze_query_execution q dbn iap mx
          { run := .ok { resultsCount := n, plan := none,
                         executionTimeMs := t },
            hashRows := hr }).execution_metrics ∧
      (analyze_query_execution q dbn iap mx
          { run := .ok { resultsCount := n, plan := some .malformed,
                         executionTimeMs := t },
            hashRows := hr }).bottleneck_type =
        (analyze_query_execution q dbn iap mx
          { run := .ok { resultsCount := n, plan := none,
                         executionTimeMs := t },
            hashRows := hr }).bottleneck_type ∧
      (analyze_query_execution q dbn iap mx
          { run := .ok { resultsCount := n, plan := some .malformed,
                         executionTimeMs := t },
            hashRows := hr }).success =
        (analyze_query_execution q dbn iap mx
          { run := .ok { resultsCount := n, plan := none,
                         executionTimeMs := t },
            hashRows := hr }).success) ∧
    (∀ (db : String) (o : MissingIdxOracle),
      analyze_missing_indexes db (some .malformed) o =
        analyze_missing_indexes db none o) ∧
    (∀ (db : String) (rows : List DmvRow) (erows : List ExistingIndexRow),
      ∃ infos, rows.mapM (processDmvRow db) = Except.ok infos ∧
        (analyze_missing_indexes db (some .malformed)
            { dmvRows := .ok rows, existingRows := .ok erows }).missing_indexes
          = infos ∧
        (analyze_missing_indexes db (some .malformed)
            { dmvRows := .ok rows, existingRows := .ok erows }).success
          = true) := by
  refine ⟨rfl, ?_, ?_, ?_⟩
  · intro q dbn iap mx n t hr
    rcases hcond : (!(pyStartsWith (pyUpper (pyStrip q)) "SELECT")
        && !(pyStartsWith (pyUpper (pyStrip q)) "WITH")) <;>
      simp [analyze_query_execution, hcond, _parse_runtime_stats_from_plan]
  · intro db o
    obtain ⟨dmv, er⟩ := o
    rcases dmv with e | rows
    · rfl
    · obtain ⟨infos, hinfos⟩ := mapM_processDmvRow_isOk db rows
      simp only [analyze_missing_indexes, hinfos]
      rcases er with e2 | erows <;> rfl
  · intro db rows erows
    obtain ⟨infos, hinfos⟩ := mapM_processDmvRow_isOk db rows
    refine ⟨infos, hinfos, ?_, ?_⟩ <;>
      · simp only [analyze_missing_indexes, hinfos]
        try rfl

/-- C4: the complexity score of detect_query_antipatterns always lies
in the closed interval from 1 to 10: it starts at 1, only grows by the
per-pattern increments, and is capped at 10. -/
theorem C4_complexity_score_bounds (q : String) (p : Option PlanXmlDoc) :
    1 ≤ (detect_query_antipatterns q p).query_complexity_score ∧
    (detect_query_antipatterns q p).query_complexity_score ≤ 10 := by
  have hlw : 0 ≤ leadingWildcardScore q := by
    unfold leadingWildcardScore
    cases leadingWildcardText q <;> norm_num
  have hns : (0 : ℚ) ≤ (3 / 2) * ((nonSargMatchList q).length : ℚ) := by
    positivity
  have hts : 0 ≤ textScore q := by
    unfold textScore
    split_ifs <;> linarith
  have hps : 0 ≤ planScore p := by
    rcases p with _ | d
    · norm_num [planScore]
    · rcases d with _ | c
      · norm_num [planScore]
      · unfold planScore
        positivity
  constructor
  · show 1 ≤ min (1 + textScore q + planScore p) 10
    exact le_min (by linarith) (by norm_num)
  · exact min_le_right _ _

/-- C8: the rewrite priority of every detect_query_antipatterns result
is the claim-side function of its finding list: HIGH if some finding is
HIGH, else MEDIUM if some finding is MEDIUM, else LOW if any finding
exists, else NONE. -/
theorem C8_rewrite_priority (q : String) (p : Option PlanXmlDoc) :
    (detect_query_antipatterns q p).rewrite_priority =
      claimRewritePriority (detect_query_antipatterns q p).antipatterns_found :=
  rewritePriorityOf_eq_claim _

/-- C5 counterexample: the lower-case query contains a pattern-match
operator with a leading-wildcard literal in the sense of the
specification, yet detect_query_antipatterns produces no
LEADING_WILDCARD finding, because the first regex of the source matches
the LIKE keyword case-sensitively. -/
theorem C5_counterexample :
    specContainsLeadingWildcardLike exampleLowercaseLikeQuery = true ∧
    ((detect_query_antipatterns exampleLowercaseLikeQuery none).antipatterns_found.all
      (fun a => a.category != "LEADING_WILDCARD")) = true := by
  decide

/-- C5 (amended): whenever the upper-case guard pattern matches and the
literal pattern (quote, percent, at least one further character, a
closing quote) matches, detect_query_antipatterns produces a
LEADING_WILDCARD finding of severity HIGH, and the leading-wildcard
check contributes exactly 1 to the complexity score. -/
theorem C5_leading_wildcard_amended (q : String) (p : Option PlanXmlDoc)
    (txt : List Char)
    (h1 : searchLikeWildcardB false q.toList = true)
    (h2 : searchLikeLiteral q.toList = some txt) :
    (∃ a ∈ (detect_query_antipatterns q p).antipatterns_found,
        a.category = "LEADING_WILDCARD" ∧ a.severity = "HIGH" ∧
        a = leadingWildcardFinding txt) ∧
    leadingWildcardScore q = 1 := by
  have hlw : leadingWildcardText q = some txt := by
    unfold leadingWildcardText
    rw [h1]
    simpa using h2
  constructor
  · refine ⟨leadingWildcardFinding txt, ?_, rfl, rfl, rfl⟩
    simp [detect_query_antipatterns, textFindings, hlw]
  · simp [leadingWildcardScore, hlw]

/-- C5 witness: the amended statement at a concrete query with an
upper-case LIKE and the literal percent-abc. -/
theorem C5_leading_wildcard_witness :
    (∃ a ∈ (detect_query_antipatterns exampleUppercaseLikeQuery
        none).antipatterns_found,
        a.category = "LEADING_WILDCARD" ∧ a.severity = "HIGH" ∧
        a = leadingWildcardFinding ("LIKE \x27%abc\x27".toList)) ∧
    leadingWildcardScore exampleUppercaseLikeQuery = 1 :=
  C5_leading_wildcard_amended exampleUppercaseLikeQuery none
    ("LIKE \x27%abc\x27".toList) (by decide) (by decide)

/-- C1 (code bug evidence): with one DMV recommendation and a
well-formed plan carrying one missing-index hint for the same table and
column set, the merged list holds only the DMV entry — the plan-stream
construction fails pydantic list validation (its column fields are a
joined string or None), the error is swallowed, and no plan
recommendation is ever appended, so nothing appears twice. -/
theorem C1_plan_stream_dropped :
    (analyze_missing_indexes "TestDB" (some (.wellFormed examplePlanContent))
        { dmvRows := .ok [exampleDmvRow], existingRows := .ok [] }).success
      = true ∧
    ((analyze_missing_indexes "TestDB" (some (.wellFormed examplePlanContent))
        { dmvRows := .ok [exampleDmvRow], existingRows := .ok [] }).missing_indexes.map
      (fun m => m.table)) = ["dbo.Orders"] ∧
    (analyze_missing_indexes "TestDB" (some (.wellFormed examplePlanContent))
        { dmvRows := .ok [exampleDmvRow], existingRows := .ok [] }).missing_indexes.length
      = 1 ∧
    collectUsage "EQUALITY" exampleMissingElem.columnGroups = ["CustomerID"] ∧
    planGroupStep exampleMissingGroup =
      some (.error "Input should be a valid list") := by
  exact ⟨by decide, by decide, by decide, by decide, rfl⟩
